import Mathlib

/-!
# node-record-lpcm16 (`src/index.js`): command builders and recording session

A shallow embedding of `src/index.js`.  The three command builders of the
`recorders` table are pure functions from the merged options object to a
backend descriptor; the `Recording` constructor merges the caller's object
with the defaults, looks the recorder up in the table (its own properties, the
builders, or a member inherited from `Object.prototype`), calls it, and calls
`start`, which hands the command to `child_process.spawn`.  The spawner belongs to the platform: the
embedding records every call made to it, with the exact arguments.  The
`close` listener and the lifecycle methods `stop`, `pause`, `resume`,
`isPaused` and `stream` act on the session's two handles: the child process,
on which the signals sent are recorded, and its output stream, which carries a
paused flag and the `error` events emitted on it.
-/

namespace RecordLpcm16

/-! ## JavaScript values -/

/-- JavaScript numbers.  A finite double is carried by its shortest decimal
literal `mant / 10 ^ places` (the digits `Number::toString` prints: `dec 16000 0`
is `16000`, `dec 5 1` is `0.5`); `nan` and `inf` are the non-finite doubles. -/
inductive Num where
  | dec (mant : Int) (places : Nat)
  | nan
  | inf (neg : Bool)
  deriving DecidableEq, Repr

/-- The primitive JavaScript values a recognised field of the options object
holds (numbers, strings, booleans, `null`, `undefined`); objects are not
modelled as values of these fields. -/
inductive Value where
  | undefined
  | null
  | bool (b : Bool)
  | number (n : Num)
  | string (s : String)
  deriving DecidableEq, Repr

/-- Drop trailing zeros of the fraction: `m / 10 ^ k` in lowest decimal terms. -/
def stripZeros : Nat → Nat → Nat × Nat
  | m, 0 => (m, 0)
  | m, k + 1 => if m % 10 = 0 then stripZeros (m / 10) k else (m, k + 1)

/-- Positional decimal text of the non-negative `m / 10 ^ k`. -/
def decText (m k : Nat) : String :=
  let p := stripZeros m k
  if p.2 = 0 then toString p.1
  else
    let frac := toString (p.1 % 10 ^ p.2)
    toString (p.1 / 10 ^ p.2) ++ "." ++
      String.mk (List.replicate (p.2 - frac.length) (Char.ofNat 48)) ++ frac

/-- The text `Number::toString` gives, in positional notation: the form
JavaScript uses for magnitudes from `1e-6` up to `1e21`.  Outside this range
JavaScript prints an exponent (`1e-7`, `1e+21`), which this text does not. -/
def Num.toStr : Num → String
  | .dec m k => (if m < 0 then "-" else "") ++ decText m.natAbs k
  | .nan => "NaN"
  | .inf neg => if neg then "-Infinity" else "Infinity"

/-- JavaScript `ToString` on primitives, as used by `+ '%'`, by template
literals and by property keys. -/
def Value.toStr : Value → String
  | .undefined => "undefined"
  | .null => "null"
  | .bool b => if b then "true" else "false"
  | .number n => n.toStr
  | .string s => s

/-- JavaScript `ToBoolean`: what `if (v)` and `v || w` test. -/
def Value.truthy : Value → Bool
  | .undefined => false
  | .null => false
  | .bool b => b
  | .number (.dec m _) => decide (m ≠ 0)
  | .number .nan => false
  | .number (.inf _) => true
  | .string s => decide (s ≠ "")

/-- The expression `a || b`. -/
def Value.or (a b : Value) : Value := if a.truthy then a else b

/-- The expression `a + '<suffix>'`: string concatenation after `ToString`. -/
def Value.plusStr (a : Value) (suffix : String) : Value :=
  .string (a.toStr ++ suffix)

/-- An integer number literal. -/
def int (i : Int) : Value := .number (.dec i 0)

/-- A string literal. -/
def str (s : String) : Value := .string s

/-! ## Options and descriptors -/

/-- Options given to `spawn`; `none` is an absent property. -/
structure SpawnOptions where
  encoding : Option Value := none
  stdio : Option Value := none
  shell : Option Value := none
  deriving DecidableEq, Repr

/-- A property `args` of the options object: a primitive, or an array. -/
inductive ArgsProp where
  | value (v : Value)
  | array (elems : List Value)
  deriving DecidableEq, Repr

/-- A property `spawnOptions` of the options object: a primitive, or an object
with the properties `spawn` is given by this program. -/
inductive SpawnOptionsProp where
  | value (v : Value)
  | object (o : SpawnOptions)
  deriving DecidableEq, Repr

/-- The merged options object `this.options`: the recognised fields, as the
builders read them, and the two further properties that line 100 can read off
the object, `args` and `spawnOptions`.  A property that is absent reads as
`undefined`. -/
structure Options where
  cmd : Value
  sampleRate : Value
  channels : Value
  compress : Value
  threshold : Value
  thresholdStart : Value
  thresholdEnd : Value
  silence : Value
  recorder : Value
  endOnSilence : Value
  audioType : Value
  device : Value
  args : ArgsProp := .value .undefined
  spawnOptions : SpawnOptionsProp := .value .undefined
  deriving DecidableEq, Repr

/-- What a builder returns: `{ cmd, args }` or `{ cmd, args, spawnOptions }`. -/
structure Descriptor where
  cmd : String
  args : List Value
  spawnOptions : Option SpawnOptions
  deriving DecidableEq, Repr

/-- The call `args.splice(start, 0, item)`: insert `item` at index `start`. -/
def splice (args : List Value) (start : Nat) (item : Value) : List Value :=
  args.take start ++ item :: args.drop start

/-- The array literal appended under `endOnSilence` (lines 40-41 and 63-64). -/
def silenceClause (options : Options) : List Value :=
  [ str "silence", str "1", str "0.1",
    options.thresholdStart.or (options.threshold.plusStr "%"),
    str "1", options.silence,
    options.thresholdEnd.or (options.threshold.plusStr "%") ]

/-! ## The `recorders` table -/

/-- The builder `recorders.arecord` (lines 7-24). -/
def arecord (options : Options) : Descriptor :=
  let cmd := "arecord"
  let args : List Value :=
    [ str "-q",
      str "-r", options.sampleRate,
      str "-c", options.channels,
      str "-t", options.audioType,
      str "-f", str "S16_LE",
      str "-" ]
  let args := if options.device.truthy then str "-D" :: options.device :: args else args
  { cmd := cmd, args := args, spawnOptions := none }

/-- The builder `recorders.rec` (lines 25-46). -/
def rec (options : Options) : Descriptor :=
  let cmd := "rec"
  let args : List Value :=
    [ str "-q",
      str "-r", options.sampleRate,
      str "-c", options.channels,
      str "-e", str "signed-integer",
      str "-b", str "16",
      str "-t", options.audioType,
      str "-" ]
  let args := if options.endOnSilence.truthy then args ++ silenceClause options else args
  { cmd := cmd, args := args, spawnOptions := none }

/-- The composite device flag of the sox builder (line 71). -/
def waveaudioFlag (device : Value) : Value :=
  str ("--type waveaudio \"" ++ device.toStr ++ "\"")

/-- The builder `recorders.sox` (lines 47-77). -/
def sox (options : Options) : Descriptor :=
  let cmd := "sox"
  let args : List Value :=
    [ str "--default-device",
      str "--no-show-progress",
      str "--rate", options.sampleRate,
      str "--channels", options.channels,
      str "--encoding", str "signed-integer",
      str "--bits", str "16",
      str "--type", options.audioType,
      str "-" ]
  let args := if options.endOnSilence.truthy then args ++ silenceClause options else args
  let spawnOptions : SpawnOptions := { shell := some (.bool true) }
  let args :=
    if options.device.truthy then splice args (args.length - 3) (waveaudioFlag options.device)
    else splice args 0 (str "--default-device")
  { cmd := cmd, args := args, spawnOptions := some spawnOptions }

/-- The own properties of `recorders`; `recB` is the key `rec`. -/
inductive Backend where
  | arecord
  | recB
  | sox
  deriving DecidableEq, Repr

/-- The function stored under a key of `recorders`. -/
def Backend.build : Backend → Options → Descriptor
  | .arecord => RecordLpcm16.arecord
  | .recB => RecordLpcm16.rec
  | .sox => RecordLpcm16.sox

/-- The property key of a backend in `recorders`. -/
def Backend.key : Backend → String
  | .arecord => "arecord"
  | .recB => "rec"
  | .sox => "sox"

/-- The own properties of the object literal `recorders` (lines 6-78), by key,
the key being `ToString` of the selector: the registered builders. -/
def recorders (key : Value) : Option Backend :=
  if key.toStr = "arecord" then some .arecord
  else if key.toStr = "rec" then some .recB
  else if key.toStr = "sox" then some .sox
  else none

/-- What the expression `recorders[key]` evaluates to.  Besides its own
properties the object literal has the members it inherits from
`Object.prototype`: `constructor` is the function `Object`; `toString` returns
a string when called without receiver; every other inherited member throws a
`TypeError` when called without receiver (`valueOf`, `hasOwnProperty`,
`isPrototypeOf`, `propertyIsEnumerable`, `toLocaleString`, the four
`__define...__`/`__lookup...__` members) or is not a function (`__proto__`),
and a key that is found nowhere gives `undefined`, not a function either. -/
inductive Member where
  | builder (b : Backend)
  | objectConstructor
  | objectToString
  | unusable
  deriving DecidableEq, Repr

/-- The lookup `recorders[this.options.recorder]` of line 99. -/
def lookupRecorder (key : Value) : Member :=
  match recorders key with
  | some b => .builder b
  | none =>
    if key.toStr = "constructor" then .objectConstructor
    else if key.toStr = "toString" then .objectToString
    else .unusable

/-- The two properties line 100 reads off the value the recorder returns. -/
structure Returned where
  args : ArgsProp
  spawnOptions : SpawnOptionsProp
  deriving DecidableEq, Repr

/-- The call `recorder(this.options)` of line 100, in strict mode without
receiver, and the properties `args` and `spawnOptions` of what it returns.  A
builder returns its descriptor; `Object(this.options)` returns the options
object itself; `toString` returns the string `[object Undefined]`, which has
neither property. -/
def Member.call (m : Member) (thisOptions : Options) : Except String Returned :=
  match m with
  | .builder b =>
    let d := b.build thisOptions
    .ok { args := .array d.args,
          spawnOptions :=
            match d.spawnOptions with
            | some o => .object o
            | none => .value .undefined }
  | .objectConstructor =>
    .ok { args := thisOptions.args, spawnOptions := thisOptions.spawnOptions }
  | .objectToString => .ok { args := .value .undefined, spawnOptions := .value .undefined }
  | .unusable => .error "TypeError"

/-- The spawn options that `Object.assign` copies from the destructured
`spawnOptions`: the properties of an object; none for `undefined` (replaced by
the default `{}`), and no spawn option for any other primitive. -/
def SpawnOptionsProp.properties : SpawnOptionsProp → SpawnOptions
  | .object o => o
  | .value _ => {}

/-! ## The recording session -/

/-- The object the caller passes to the constructor: `none` is a property the
caller did not supply (`hasOwnProperty` is false), `some v` a supplied one,
`v` being `undefined` included.  Besides the recognised fields it can carry the
properties `args` and `spawnOptions`, which line 100 reads when the recorder
returns the options object itself. -/
structure Config where
  cmd : Option Value := none
  sampleRate : Option Value := none
  channels : Option Value := none
  compress : Option Value := none
  threshold : Option Value := none
  thresholdStart : Option Value := none
  thresholdEnd : Option Value := none
  silence : Option Value := none
  recorder : Option Value := none
  endOnSilence : Option Value := none
  audioType : Option Value := none
  device : Option Value := none
  args : Option ArgsProp := none
  spawnOptions : Option SpawnOptionsProp := none
  deriving DecidableEq, Repr

/-- The object literal `defaults` (lines 82-94); it has no `device`, no `args`
and no `spawnOptions`. -/
def defaults : Options :=
  { cmd := str "sox",
    sampleRate := int 16000,
    channels := int 1,
    compress := .bool false,
    threshold := .number (.dec 5 1),
    thresholdStart := .null,
    thresholdEnd := .null,
    silence := str "1.0",
    recorder := str "sox",
    endOnSilence := .bool false,
    audioType := str "wav",
    device := .undefined,
    args := .value .undefined,
    spawnOptions := .value .undefined }

/-- Line 96: `if (!options.hasOwnProperty('cmd') && options.hasOwnProperty('recorder'))
options.cmd = options.recorder`, an update of the caller's object. -/
def aliasCmd (options : Config) : Config :=
  if options.cmd.isNone && options.recorder.isSome then
    { options with cmd := options.recorder }
  else options

/-- The call `Object.assign(target, source)`: every own property of the source
overwrites the target's. -/
def assign (target : Options) (source : Config) : Options :=
  { cmd := source.cmd.getD target.cmd,
    sampleRate := source.sampleRate.getD target.sampleRate,
    channels := source.channels.getD target.channels,
    compress := source.compress.getD target.compress,
    threshold := source.threshold.getD target.threshold,
    thresholdStart := source.thresholdStart.getD target.thresholdStart,
    thresholdEnd := source.thresholdEnd.getD target.thresholdEnd,
    silence := source.silence.getD target.silence,
    recorder := source.recorder.getD target.recorder,
    endOnSilence := source.endOnSilence.getD target.endOnSilence,
    audioType := source.audioType.getD target.audioType,
    device := source.device.getD target.device,
    args := source.args.getD target.args,
    spawnOptions := source.spawnOptions.getD target.spawnOptions }

/-- The merged options `this.options` of lines 96-97. -/
def mergeOptions (options : Config) : Options :=
  assign defaults (aliasCmd options)

/-- The call `Object.assign(target, spawnOptions)` on spawn options. -/
def assignSpawn (target source : SpawnOptions) : SpawnOptions :=
  { encoding := source.encoding.orElse (fun _ => target.encoding),
    stdio := source.stdio.orElse (fun _ => target.stdio),
    shell := source.shell.orElse (fun _ => target.shell) }

/-- One call `spawn(cmd, args, cmdOptions)` as the platform receives it. -/
structure SpawnCall where
  cmd : Value
  args : List Value
  options : SpawnOptions
  deriving DecidableEq, Repr

/-- The child process handle: the signals sent to it through `kill`. -/
structure ChildProcess where
  signals : List String := []
  deriving DecidableEq, Repr

/-- The readable stream `cp.stdout`: its paused flag and the `error` events
emitted on it. -/
structure Readable where
  paused : Bool := false
  errors : List String := []
  deriving DecidableEq, Repr

/-- The fields of a `Recording` instance; `process` and `_stream` are absent
until `start` has set them. -/
structure Recording where
  options : Options
  cmd : Value
  args : List Value
  cmdOptions : SpawnOptions
  process : Option ChildProcess := none
  _stream : Option Readable := none
  deriving DecidableEq, Repr

/-- The platform's `child_process.spawn`, a parameter of the embedding: given a
call it throws, or it returns the child process and its stream `cp.stdout`. -/
abbrev Spawn := SpawnCall → Except String (ChildProcess × Readable)

/-- A platform on which every call to `spawn` returns a fresh child. -/
def spawnAlways : Spawn := fun _ => .ok ({}, {})

/-- What the session has done to the platform: the calls made to `spawn`,
oldest first. -/
structure World where
  spawned : List SpawnCall := []
  deriving DecidableEq, Repr

/-- The method `start` (lines 114-145): call `spawn(cmd, args, cmdOptions)` and
keep the child in `process` and its output stream in `_stream`. -/
def Recording.start (spawn : Spawn) (self : Recording) (w : World) :
    Except String Recording × World :=
  let call : SpawnCall := { cmd := self.cmd, args := self.args, options := self.cmdOptions }
  let w : World := { w with spawned := w.spawned ++ [call] }
  match spawn call with
  | .error e => (.error e, w)
  | .ok (cp, rec_) => (.ok { self with process := some cp, _stream := some rec_ }, w)

/-- The constructor (lines 81-112).  `Except.error` is an exception thrown: by
the call of line 100 when what was looked up cannot be called, by
`this.args.join` of line 109 when `args` is not an array, or by `spawn`. -/
def Recording.new (spawn : Spawn) (options : Config) (w : World) :
    Except String Recording × World :=
  let options := aliasCmd options
  let thisOptions := assign defaults options
  let recorder := lookupRecorder thisOptions.recorder
  match recorder.call thisOptions with
  | .error e => (.error e, w)
  | .ok returned =>
    let spawnOptions := returned.spawnOptions.properties
    let cmd := options.cmd.getD .undefined
    let cmdOptions :=
      assignSpawn { encoding := some (str "binary"), stdio := some (str "pipe") } spawnOptions
    match returned.args with
    | .value _ => (.error "TypeError", w)
    | .array args =>
      let self : Recording :=
        { options := thisOptions,
          cmd := cmd,
          args := args,
          cmdOptions := cmdOptions }
      self.start spawn w

/-- The export `record(options)`, on a platform that has seen no call yet. -/
def record (spawn : Spawn) (options : Config) : Except String Recording × World :=
  Recording.new spawn options {}

/-! ## Events and lifecycle methods -/

/-- Equality of two numbers under `===`: equal values, `NaN` equal to nothing. -/
def Num.strictEq : Num → Num → Bool
  | .dec m k, .dec n j => decide (m * 10 ^ j = n * 10 ^ k)
  | .inf a, .inf b => a == b
  | _, _ => false

/-- The comparison `a === b` on primitives. -/
def Value.strictEq : Value → Value → Bool
  | .undefined, .undefined => true
  | .null, .null => true
  | .bool a, .bool b => a == b
  | .number a, .number b => a.strictEq b
  | .string a, .string b => a == b
  | _, _ => false

/-- The call `rec.emit('error', message)`: one more `error` event on the stream. -/
def Readable.emitError (r : Readable) (message : String) : Readable :=
  { r with errors := r.errors ++ [message] }

/-- Modelled from the spec: the platform's `stream.pause()`, not part of the
repository, marks the output stream as paused. -/
def Readable.pause (r : Readable) : Readable := { r with paused := true }

/-- Modelled from the spec: the platform's `stream.resume()`, not part of the
repository, un-pauses the output stream. -/
def Readable.resume (r : Readable) : Readable := { r with paused := false }

/-- Modelled from the spec: the platform's `stream.isPaused()`, not part of the
repository, tells whether the output stream is currently in the paused state. -/
def Readable.isPaused (r : Readable) : Bool := r.paused

/-- The call `process.kill(signal)`, recorded on the handle; without an
argument the platform sends its default termination signal, `SIGTERM`. -/
def ChildProcess.kill (cp : ChildProcess) (signal : Option String) : ChildProcess :=
  { cp with signals := cp.signals ++ [signal.getD "SIGTERM"] }

/-- The message of the template literal of lines 126-128. -/
def exitMessage (cmd code : Value) : String :=
  cmd.toStr ++ " has exited with error code " ++ code.toStr ++
    ".\n\nEnable debugging with the environment variable DEBUG=record."

/-- The `close` listener that `start` puts on the child (lines 124-130), as it
acts on the stream `rec` it was registered with. -/
def Recording.onClose (self : Recording) (rec_ : Readable) (code : Value) : Readable :=
  if code.strictEq (int 0) then rec_
  else rec_.emitError (exitMessage self.cmd code)

/-- The child of a started session closes with `code`: the `close` listener
runs on the session's output stream. -/
def Recording.close (self : Recording) (code : Value) : Recording :=
  match self._stream with
  | none => self
  | some rec_ => { self with _stream := some (self.onClose rec_ code) }

/-- The message of the assertion in every lifecycle method. -/
def notStarted : String := "Recording not yet started"

/-- The method `stop` (lines 147-151). -/
def Recording.stop (self : Recording) : Except String Unit × Recording :=
  match self.process with
  | none => (.error notStarted, self)
  | some cp => (.ok (), { self with process := some (cp.kill none) })

/-- The method `pause` (lines 153-159); `TypeError` is the failure of
`this._stream.pause()` on a session that has a process but no stream. -/
def Recording.pause (self : Recording) : Except String Unit × Recording :=
  match self.process with
  | none => (.error notStarted, self)
  | some cp =>
    let self := { self with process := some (cp.kill (some "SIGSTOP")) }
    match self._stream with
    | none => (.error "TypeError", self)
    | some rec_ => (.ok (), { self with _stream := some rec_.pause })

/-- The method `resume` (lines 161-167). -/
def Recording.resume (self : Recording) : Except String Unit × Recording :=
  match self.process with
  | none => (.error notStarted, self)
  | some cp =>
    let self := { self with process := some (cp.kill (some "SIGCONT")) }
    match self._stream with
    | none => (.error "TypeError", self)
    | some rec_ => (.ok (), { self with _stream := some rec_.resume })

/-- The method `isPaused` (lines 169-173). -/
def Recording.isPaused (self : Recording) : Except String Bool × Recording :=
  match self.process with
  | none => (.error notStarted, self)
  | some _ =>
    match self._stream with
    | none => (.error "TypeError", self)
    | some rec_ => (.ok rec_.isPaused, self)

/-- The method `stream` (lines 175-179). -/
def Recording.stream (self : Recording) : Except String Readable × Recording :=
  match self._stream with
  | none => (.error notStarted, self)
  | some rec_ => (.ok rec_, self)

/-- The platform's reading of the `stdio` option of `spawn`: a string stands
for that same setting on standard input, standard output and standard error,
in this order (`'pipe'` is shorthand for `['pipe', 'pipe', 'pipe']`). -/
def SpawnOptions.stdioTriple (o : SpawnOptions) : Option (Value × Value × Value) :=
  o.stdio.map fun v => (v, v, v)

/-- The flag that introduces the audio type (lines 14, 34, 57). -/
def Backend.typeFlag : Backend → Value
  | .arecord => str "-t"
  | .recB => str "-t"
  | .sox => str "--type"

/-- The quiet flag (lines 11, 29, 52). -/
def Backend.quietFlag : Backend → Value
  | .arecord => str "-q"
  | .recB => str "-q"
  | .sox => str "--no-show-progress"

/-- The tokens that fix the sample format (lines 15, 32-33, 55-56). -/
def Backend.formatTokens : Backend → List Value
  | .arecord => [str "-f", str "S16_LE"]
  | .recB => [str "-e", str "signed-integer", str "-b", str "16"]
  | .sox => [str "--encoding", str "signed-integer", str "--bits", str "16"]

/-! ## Vocabulary of the properties -/

/-- The backend selector as the specification describes it: the explicit `cmd`
if given, else the legacy alias `recorder` if given, else the default `'sox'`. -/
def claimedSelector (c : Config) : Value :=
  match c.cmd with
  | some v => v
  | none =>
    match c.recorder with
    | some r => r
    | none => str "sox"

/-- The session of `c` calls the spawner once, with exactly the executable name
and the argument vector that the builder of `b` returns for the merged
configuration. -/
def SpawnsAsBuilt (spawn : Spawn) (c : Config) (b : Backend) : Prop :=
  ∃ call, (record spawn c).2.spawned = [call] ∧
    call.cmd = str (b.build (mergeOptions c)).cmd ∧
    call.args = (b.build (mergeOptions c)).args

/-- Construction fails and no call reaches the spawner. -/
def FailsBeforeSpawn (spawn : Spawn) (c : Config) : Prop :=
  (∃ e, (record spawn c).1 = .error e) ∧ (record spawn c).2.spawned = []

/-- The flag that introduces the sample rate (lines 12, 30, 53). -/
def Backend.rateFlag : Backend → Value
  | .arecord => str "-r"
  | .recB => str "-r"
  | .sox => str "--rate"

/-- The flag that introduces the channel count (lines 13, 31, 54). -/
def Backend.channelFlag : Backend → Value
  | .arecord => str "-c"
  | .recB => str "-c"
  | .sox => str "--channels"

/-- The device identifier occurs in the argument vector: the text of some
token has the text of the identifier inside. -/
def MentionsDevice (device : Value) (args : List Value) : Prop :=
  ∃ t ∈ args, device.toStr.data <:+: t.toStr.data

instance (device : Value) (args : List Value) : Decidable (MentionsDevice device args) := by
  unfold MentionsDevice
  infer_instance

/-- The spawn options leave standard input unconnected (any setting but a
pipe) and ask for standard output and standard error as pipes. -/
def StdinUnconnectedOutputsPiped (o : SpawnOptions) : Prop :=
  ∃ i, o.stdioTriple = some (i, str "pipe", str "pipe") ∧ i ≠ str "pipe"

/-- One of the values the sox builder passes through unchanged is itself the
token `--default-device`. -/
def PassesDefaultDevice (o : Options) : Prop :=
  o.sampleRate = str "--default-device" ∨ o.channels = str "--default-device" ∨
    o.audioType = str "--default-device" ∨ o.silence = str "--default-device" ∨
    o.thresholdStart = str "--default-device" ∨ o.thresholdEnd = str "--default-device"

/-- The characters the text of a number is made of. -/
def numChars : List Char := "0123456789-.NaInfity".data

/-! ## The text of a number names no backend -/

theorem digitChar_mem_numChars : ∀ d, d < 10 → Nat.digitChar d ∈ numChars := by
  decide

theorem toDigitsCore_numChars (f : Nat) : ∀ (n : Nat) (acc : List Char),
    (∀ c ∈ acc, c ∈ numChars) → ∀ c ∈ Nat.toDigitsCore 10 f n acc, c ∈ numChars := by
  induction f with
  | zero => intro n acc h; simpa [Nat.toDigitsCore] using h
  | succ f ih =>
    intro n acc h
    simp only [Nat.toDigitsCore]
    have hd : Nat.digitChar (n % 10) ∈ numChars :=
      digitChar_mem_numChars _ (Nat.mod_lt _ (by decide))
    split
    · intro c hc
      rcases List.mem_cons.1 hc with rfl | hc
      · exact hd
      · exact h c hc
    · apply ih
      intro c hc
      rcases List.mem_cons.1 hc with rfl | hc
      · exact hd
      · exact h c hc

theorem natToString_numChars (n : Nat) : ∀ c ∈ (toString n).data, c ∈ numChars := by
  show ∀ c ∈ (Nat.repr n).data, c ∈ numChars
  simp only [Nat.repr, List.asString, Nat.toDigits]
  exact toDigitsCore_numChars _ _ _ (by simp)

theorem decText_numChars (m k : Nat) : ∀ c ∈ (decText m k).data, c ∈ numChars := by
  intro c hc
  simp only [decText] at hc
  split at hc
  · exact natToString_numChars _ c hc
  · simp only [String.data_append, List.mem_append, List.mem_replicate] at hc
    rcases hc with ((h | h) | h) | h
    · exact natToString_numChars _ c h
    · have : c = '.' := by simpa using h
      subst this; decide
    · rw [h.2]; decide
    · exact natToString_numChars _ c h

theorem Num.toStr_numChars (n : Num) : ∀ c ∈ n.toStr.data, c ∈ numChars := by
  cases n with
  | dec m k =>
    intro c hc
    simp only [Num.toStr, String.data_append, List.mem_append] at hc
    rcases hc with h | h
    · split at h
      · have : c = '-' := by simpa using h
        subst this; decide
      · simp at h
    · exact decText_numChars _ _ c h
  | nan => decide
  | inf neg => cases neg <;> decide

/-- A selector under which `recorders` holds a builder is the name of that
builder, as a string. -/
theorem recorders_eq_some {v : Value} {b : Backend} (h : recorders v = some b) :
    v = str b.key := by
  cases v with
  | undefined => revert h; cases b <;> decide
  | null => revert h; cases b <;> decide
  | bool x => revert h; cases b <;> cases x <;> decide
  | number n =>
    exfalso
    have hn := Num.toStr_numChars n
    have hr : 'r' ∉ n.toStr.data := fun hc => absurd (hn _ hc) (by decide)
    have hs : 's' ∉ n.toStr.data := fun hc => absurd (hn _ hc) (by decide)
    simp only [recorders, Value.toStr] at h
    split at h
    · rename_i e; rw [e] at hr; exact hr (by decide)
    · split at h
      · rename_i e; rw [e] at hr; exact hr (by decide)
      · split at h
        · rename_i e; rw [e] at hs; exact hs (by decide)
        · cases h
  | string s =>
    simp only [recorders, Value.toStr] at h
    split at h
    · rename_i e; cases h; simp [str, Backend.key, e]
    · split at h
      · rename_i e; cases h; simp [str, Backend.key, e]
      · split at h
        · rename_i e; cases h; simp [str, Backend.key, e]
        · cases h

/-- The executable name a builder returns is its key in `recorders`. -/
theorem build_cmd (b : Backend) (o : Options) : (b.build o).cmd = b.key := by
  cases b <;> rfl

/-- The merged `recorder` is the caller's, or the default `'sox'`. -/
theorem merged_recorder (c : Config) :
    (assign defaults (aliasCmd c)).recorder = c.recorder.getD (str "sox") := by
  simp only [assign, aliasCmd]
  split <;> rfl

/-- The session as the constructor has filled it in when it calls `start`. -/
theorem record_of_recorders (spawn : Spawn) {c : Config} {b : Backend}
    (h : recorders (c.recorder.getD (str "sox")) = some b) :
    record spawn c =
      Recording.start spawn
        { options := mergeOptions c,
          cmd := (aliasCmd c).cmd.getD .undefined,
          args := (b.build (mergeOptions c)).args,
          cmdOptions :=
            assignSpawn { encoding := some (str "binary"), stdio := some (str "pipe") }
              ((b.build (mergeOptions c)).spawnOptions.getD {}) } {} := by
  have hl : lookupRecorder (c.recorder.getD (str "sox")) = .builder b := by
    simp [lookupRecorder, h]
  simp only [record, Recording.new, merged_recorder, hl, Member.call, mergeOptions]
  cases (b.build (assign defaults (aliasCmd c))).spawnOptions <;> rfl

/-- What the constructor does when the recorder is neither a builder nor the
inherited `constructor`. -/
theorem record_of_recorders_none (spawn : Spawn) {c : Config}
    (h : recorders (c.recorder.getD (str "sox")) = none)
    (hc : (c.recorder.getD (str "sox")).toStr ≠ "constructor") :
    record spawn c = (.error "TypeError", {}) := by
  by_cases ht : (c.recorder.getD (str "sox")).toStr = "toString"
  · have hl : lookupRecorder (c.recorder.getD (str "sox")) = .objectToString := by
      simp [lookupRecorder, h, hc, ht]
    simp only [record, Recording.new, merged_recorder, hl, Member.call]
  · have hl : lookupRecorder (c.recorder.getD (str "sox")) = .unusable := by
      simp [lookupRecorder, h, hc, ht]
    simp only [record, Recording.new, merged_recorder, hl, Member.call]

/-- What the constructor does when the recorder is the inherited `constructor`:
the options object itself is destructured. -/
theorem record_of_constructor (spawn : Spawn) {c : Config}
    (hc : (c.recorder.getD (str "sox")).toStr = "constructor") :
    record spawn c =
      match (mergeOptions c).args with
      | .value _ => (.error "TypeError", {})
      | .array args =>
        Recording.start spawn
          { options := mergeOptions c,
            cmd := (aliasCmd c).cmd.getD .undefined,
            args := args,
            cmdOptions :=
              assignSpawn { encoding := some (str "binary"), stdio := some (str "pipe") }
                (mergeOptions c).spawnOptions.properties } {} := by
  have hl : lookupRecorder (c.recorder.getD (str "sox")) = .objectConstructor := by
    simp [lookupRecorder, recorders, hc]
  simp only [record, Recording.new, merged_recorder, hl, Member.call, mergeOptions]

/-- The method `start` calls the spawner once, with the session's own fields. -/
theorem start_spawned (spawn : Spawn) (self : Recording) (w : World) :
    (self.start spawn w).2.spawned =
      w.spawned ++ [{ cmd := self.cmd, args := self.args, options := self.cmdOptions }] := by
  simp only [Recording.start]
  cases spawn { cmd := self.cmd, args := self.args, options := self.cmdOptions } with
  | error e => rfl
  | ok p => rfl

/-- The method `start` returns the session with its fields as they were, the
handles apart. -/
theorem start_ok (spawn : Spawn) (self : Recording) (w : World) :
    match (self.start spawn w).1 with
    | .ok s =>
      s.options = self.options ∧ s.cmd = self.cmd ∧ s.args = self.args ∧
        s.cmdOptions = self.cmdOptions
    | .error _ => True := by
  simp only [Recording.start]
  cases spawn { cmd := self.cmd, args := self.args, options := self.cmdOptions } with
  | error e => trivial
  | ok p => exact ⟨rfl, rfl, rfl, rfl⟩

/-- The session `start` returns has the fields of the session it was called on,
the handles apart. -/
theorem start_ok_of_eq {spawn : Spawn} {self s : Recording} {w : World}
    (h : (self.start spawn w).1 = .ok s) :
    s.options = self.options ∧ s.cmd = self.cmd ∧ s.args = self.args ∧
      s.cmdOptions = self.cmdOptions := by
  have hs := start_ok spawn self w
  rw [h] at hs
  exact hs

/-- A session that is constructed keeps the merged options. -/
theorem record_ok_options {spawn : Spawn} {c : Config} {s : Recording}
    (h : (record spawn c).1 = .ok s) : s.options = mergeOptions c := by
  cases hb : recorders (c.recorder.getD (str "sox")) with
  | some b =>
    rw [record_of_recorders spawn hb] at h
    exact (start_ok_of_eq h).1
  | none =>
    by_cases hc : (c.recorder.getD (str "sox")).toStr = "constructor"
    · rw [record_of_constructor spawn hc] at h
      cases ha : (mergeOptions c).args with
      | value v => rw [ha] at h; cases h
      | array args =>
        rw [ha] at h
        exact (start_ok_of_eq h).1
    · rw [record_of_recorders_none spawn hb hc] at h
      cases h

/-! ## Construction -/

/-- C1 (the code at the failing input): constructed with the empty
configuration, the session calls the spawner once and hands it `undefined` as
the executable name, not `'sox'`, although the merged options hold `cmd`
`'sox'`: line 101 reads `cmd` from the caller's object.  The argument vector
handed over does hold the adjacent pairs `--rate 16000`, `--channels 1` and
`--type wav`. -/
theorem C1_empty_config_hands_undefined_cmd (spawn : Spawn) :
    ∃ call, (record spawn {}).2.spawned = [call] ∧
      call.cmd = .undefined ∧ call.cmd ≠ str "sox" ∧
      (mergeOptions {}).cmd = str "sox" ∧
      [str "--rate", int 16000] <:+: call.args ∧
      [str "--channels", int 1] <:+: call.args ∧
      [str "--type", str "wav"] <:+: call.args := by
  have h : recorders ((({} : Config).recorder).getD (str "sox")) = some Backend.sox := by decide
  refine ⟨{ cmd := .undefined,
            args := (sox (mergeOptions {})).args,
            options := { encoding := some (str "binary"), stdio := some (str "pipe"),
                         shell := some (.bool true) } }, ?_, rfl, ?_, rfl, ?_, ?_, ?_⟩
  · rw [record_of_recorders spawn h, start_spawned]
    rfl
  all_goals decide

/-- C2 (counterexample): for the caller object `{ cmd: 'rec' }` the selector the
claim resolves is `'rec'`, a registered backend, yet the session does not spawn
with the argument vector of the `rec` builder: the constructor looks the
builder up under `recorder`, whose default is `'sox'`, and hands over the
vector of the sox builder with `'rec'` as the executable name. -/
theorem C2_counterexample_cmd_rec :
    recorders (claimedSelector { cmd := some (str "rec") }) = some Backend.recB ∧
      ¬ SpawnsAsBuilt spawnAlways { cmd := some (str "rec") } Backend.recB ∧
      (record spawnAlways { cmd := some (str "rec") }).2.spawned =
        [{ cmd := str "rec",
           args := (sox (mergeOptions { cmd := some (str "rec") })).args,
           options := { encoding := some (str "binary"), stdio := some (str "pipe"),
                        shell := some (.bool true) } }] := by
  refine ⟨by decide, ?_, by decide⟩
  rintro ⟨call, h, -, hargs⟩
  have hc : (record spawnAlways { cmd := some (str "rec") }).2.spawned =
      [{ cmd := str "rec",
         args := (sox (mergeOptions { cmd := some (str "rec") })).args,
         options := { encoding := some (str "binary"), stdio := some (str "pipe"),
                      shell := some (.bool true) } }] := by decide
  rw [hc] at h
  injection h with h _
  rw [← h] at hargs
  revert hargs
  decide

/-- C2 (amended): when the merged `recorder` field (the caller's `recorder` if
given, else `'sox'`) names a registered backend `b`, the session calls the
spawner once, with exactly the argument vector the builder of `b` returns for
the merged configuration; the executable name handed over is the caller's
`cmd` when given, and with `cmd` absent and `recorder` given it is the
builder's own `cmd`; and the session returned keeps that name and vector. -/
theorem C2_session_spawns_recorder_builder (spawn : Spawn) (c : Config) (b : Backend)
    (h : recorders (c.recorder.getD (str "sox")) = some b) :
    ∃ call, (record spawn c).2.spawned = [call] ∧
      call.args = (b.build (mergeOptions c)).args ∧
      (∀ v, c.cmd = some v → call.cmd = v) ∧
      (c.cmd = none → c.recorder ≠ none → call.cmd = str (b.build (mergeOptions c)).cmd) ∧
      (match (record spawn c).1 with
        | .ok s => s.cmd = call.cmd ∧ s.args = call.args ∧ s.cmdOptions = call.options
        | .error _ => True) := by
  refine ⟨{ cmd := (aliasCmd c).cmd.getD .undefined,
            args := (b.build (mergeOptions c)).args,
            options := assignSpawn { encoding := some (str "binary"), stdio := some (str "pipe") }
              ((b.build (mergeOptions c)).spawnOptions.getD {}) }, ?_, rfl, ?_, ?_, ?_⟩
  · rw [record_of_recorders spawn h, start_spawned]
    rfl
  · intro v hv
    simp [aliasCmd, hv]
  · intro hc hr
    obtain ⟨r, hr⟩ := Option.ne_none_iff_exists'.1 hr
    have hk : r = str b.key := recorders_eq_some (by simpa [hr] using h)
    simp [aliasCmd, hc, hr, hk, build_cmd]
  · rw [record_of_recorders spawn h]
    have hs := start_ok spawn
      { options := mergeOptions c,
        cmd := (aliasCmd c).cmd.getD .undefined,
        args := (b.build (mergeOptions c)).args,
        cmdOptions :=
          assignSpawn { encoding := some (str "binary"), stdio := some (str "pipe") }
            ((b.build (mergeOptions c)).spawnOptions.getD {}) } {}
    revert hs
    split
    · rintro ⟨-, h2, h3, h4⟩
      exact ⟨h2, h3, h4⟩
    · intro _; trivial

/-- C2 (witness): the caller object `{ recorder: 'rec' }`. -/
theorem C2_session_spawns_recorder_builder_witness :
    recorders ((({ recorder := some (str "rec") } : Config).recorder).getD (str "sox")) =
        some Backend.recB ∧
      ∃ call, (record spawnAlways { recorder := some (str "rec") }).2.spawned = [call] ∧
        call.args = (Backend.recB.build (mergeOptions { recorder := some (str "rec") })).args ∧
        (∀ v, ({ recorder := some (str "rec") } : Config).cmd = some v → call.cmd = v) ∧
        (({ recorder := some (str "rec") } : Config).cmd = none →
          ({ recorder := some (str "rec") } : Config).recorder ≠ none →
          call.cmd = str (Backend.recB.build (mergeOptions { recorder := some (str "rec") })).cmd) ∧
        (match (record spawnAlways { recorder := some (str "rec") }).1 with
          | .ok s => s.cmd = call.cmd ∧ s.args = call.args ∧ s.cmdOptions = call.options
          | .error _ => True) :=
  ⟨by decide, C2_session_spawns_recorder_builder spawnAlways { recorder := some (str "rec") }
    Backend.recB (by decide)⟩

/-- C3 (counterexample): for the caller object `{ cmd: 'foo' }` the selector the
claim resolves is `'foo'`, which names no builder, yet construction does not
fail before the spawner: the spawner is called, with `'foo'` as the executable
name. -/
theorem C3_counterexample_cmd_foo :
    recorders (claimedSelector { cmd := some (str "foo") }) = none ∧
      ¬ FailsBeforeSpawn spawnAlways { cmd := some (str "foo") } ∧
      (∃ a o, (record spawnAlways { cmd := some (str "foo") }).2.spawned =
        [{ cmd := str "foo", args := a, options := o }]) := by
  refine ⟨by decide, ?_, ⟨_, _, rfl⟩⟩
  rintro ⟨-, h⟩
  revert h
  decide

/-- C3 (amended): when the merged `recorder` field (the caller's `recorder` if
given, else `'sox'`) is a name other than `constructor` that names no
registered builder, construction fails and the spawner is never called. -/
theorem C3_unregistered_recorder_fails_before_spawn (spawn : Spawn) (c : Config)
    (h : recorders (c.recorder.getD (str "sox")) = none)
    (hc : (c.recorder.getD (str "sox")).toStr ≠ "constructor") :
    FailsBeforeSpawn spawn c := by
  unfold FailsBeforeSpawn
  rw [record_of_recorders_none spawn h hc]
  exact ⟨⟨_, rfl⟩, rfl⟩

/-- C3 (witness): the caller object `{ recorder: 'foo' }`. -/
theorem C3_unregistered_recorder_fails_before_spawn_witness :
    recorders ((({ recorder := some (str "foo") } : Config).recorder).getD (str "sox")) = none ∧
      ((({ recorder := some (str "foo") } : Config).recorder).getD (str "sox")).toStr ≠
        "constructor" ∧
      FailsBeforeSpawn spawnAlways { recorder := some (str "foo") } :=
  ⟨by decide, by decide, C3_unregistered_recorder_fails_before_spawn spawnAlways
    { recorder := some (str "foo") } (by decide) (by decide)⟩

/-- C4: the merged configuration holds, for each recognised field, the caller's
value when the caller supplied the field and otherwise the default (`cmd`
`'sox'`, `sampleRate` 16000, `channels` 1, `compress` false, `threshold` 0.5,
`silence` `'1.0'`, `endOnSilence` false, `audioType` `'wav'`, `recorder`
`'sox'`, both threshold overrides `null`, no `device`); with `cmd` omitted and
`recorder` supplied, the merged `cmd` is the supplied `recorder`; and a session
that is constructed keeps exactly this merged configuration. -/
theorem C4_merged_configuration (spawn : Spawn) (c : Config) :
    (mergeOptions c).cmd = c.cmd.getD (c.recorder.getD (str "sox")) ∧
    (mergeOptions c).sampleRate = c.sampleRate.getD (int 16000) ∧
    (mergeOptions c).channels = c.channels.getD (int 1) ∧
    (mergeOptions c).compress = c.compress.getD (.bool false) ∧
    (mergeOptions c).threshold = c.threshold.getD (.number (.dec 5 1)) ∧
    (mergeOptions c).silence = c.silence.getD (str "1.0") ∧
    (mergeOptions c).endOnSilence = c.endOnSilence.getD (.bool false) ∧
    (mergeOptions c).audioType = c.audioType.getD (str "wav") ∧
    (mergeOptions c).recorder = c.recorder.getD (str "sox") ∧
    (mergeOptions c).thresholdStart = c.thresholdStart.getD .null ∧
    (mergeOptions c).thresholdEnd = c.thresholdEnd.getD .null ∧
    (mergeOptions c).device = c.device.getD .undefined ∧
    (Value.number (.dec 5 1)).toStr = "0.5" ∧
    (match (record spawn c).1 with
      | .ok s => s.options = mergeOptions c
      | .error _ => True) := by
  refine ⟨?_, ?_, ?_, ?_, ?_, ?_, ?_, ?_, ?_, ?_, ?_, ?_, by decide, ?_⟩
  · simp only [mergeOptions, assign, aliasCmd, defaults]
    cases hc : c.cmd <;> cases hr : c.recorder <;> simp [hc, hr]
  all_goals first
    | (simp only [mergeOptions, assign, aliasCmd, defaults]; split <;> rfl)
    | skip
  split
  · next s hs => exact record_ok_options hs
  · trivial

/-! ## The builders, case by case -/

theorem arecord_args_unset (o : Options) (hd : o.device.truthy = false) :
    (arecord o).args = [str "-q", str "-r", o.sampleRate, str "-c", o.channels,
      str "-t", o.audioType, str "-f", str "S16_LE", str "-"] := by
  simp [arecord, hd]

theorem arecord_args_device (o : Options) (hd : o.device.truthy = true) :
    (arecord o).args = [str "-D", o.device, str "-q", str "-r", o.sampleRate, str "-c",
      o.channels, str "-t", o.audioType, str "-f", str "S16_LE", str "-"] := by
  simp [arecord, hd]

theorem rec_args_plain (o : Options) (he : o.endOnSilence.truthy = false) :
    (rec o).args = [str "-q", str "-r", o.sampleRate, str "-c", o.channels, str "-e",
      str "signed-integer", str "-b", str "16", str "-t", o.audioType, str "-"] := by
  simp [rec, he]

theorem rec_args_silence (o : Options) (he : o.endOnSilence.truthy = true) :
    (rec o).args = [str "-q", str "-r", o.sampleRate, str "-c", o.channels, str "-e",
      str "signed-integer", str "-b", str "16", str "-t", o.audioType, str "-"] ++
      silenceClause o := by
  simp [rec, he]

theorem sox_args_plain (o : Options) (hd : o.device.truthy = false)
    (he : o.endOnSilence.truthy = false) :
    (sox o).args = [str "--default-device", str "--default-device", str "--no-show-progress",
      str "--rate", o.sampleRate, str "--channels", o.channels, str "--encoding",
      str "signed-integer", str "--bits", str "16", str "--type", o.audioType, str "-"] := by
  simp [sox, hd, he, splice]

theorem sox_args_silence (o : Options) (hd : o.device.truthy = false)
    (he : o.endOnSilence.truthy = true) :
    (sox o).args = [str "--default-device", str "--default-device", str "--no-show-progress",
      str "--rate", o.sampleRate, str "--channels", o.channels, str "--encoding",
      str "signed-integer", str "--bits", str "16", str "--type", o.audioType, str "-"] ++
      silenceClause o := by
  simp [sox, hd, he, splice]

theorem sox_args_device_plain (o : Options) (hd : o.device.truthy = true)
    (he : o.endOnSilence.truthy = false) :
    (sox o).args = [str "--default-device", str "--no-show-progress",
      str "--rate", o.sampleRate, str "--channels", o.channels, str "--encoding",
      str "signed-integer", str "--bits", str "16", waveaudioFlag o.device,
      str "--type", o.audioType, str "-"] := by
  simp [sox, hd, he, splice]

theorem sox_args_device_silence (o : Options) (hd : o.device.truthy = true)
    (he : o.endOnSilence.truthy = true) :
    (sox o).args = [str "--default-device", str "--no-show-progress",
      str "--rate", o.sampleRate, str "--channels", o.channels, str "--encoding",
      str "signed-integer", str "--bits", str "16", str "--type", o.audioType, str "-",
      str "silence", str "1", str "0.1",
      o.thresholdStart.or (o.threshold.plusStr "%"), waveaudioFlag o.device,
      str "1", o.silence, o.thresholdEnd.or (o.threshold.plusStr "%")] := by
  simp [sox, hd, he, splice, silenceClause]

/-- The array appended under `endOnSilence`, token by token. -/
theorem silenceClause_eq (o : Options) :
    silenceClause o =
      [str "silence", str "1", str "0.1",
        if o.thresholdStart.truthy = true then o.thresholdStart
        else str (o.threshold.toStr ++ "%"),
        str "1", o.silence,
        if o.thresholdEnd.truthy = true then o.thresholdEnd
        else str (o.threshold.toStr ++ "%")] := by
  simp [silenceClause, Value.or, Value.plusStr, str]

/-- Two adjacent tokens of a vector are a pair of the vector zipped with its tail. -/
theorem pair_mem_zip_tail_of_infix {x y : Value} {l : List Value} (h : [x, y] <:+: l) :
    (x, y) ∈ l.zip l.tail := by
  obtain ⟨s, t, rfl⟩ := h
  induction s with
  | nil => simp
  | cons a s ih =>
    cases s with
    | nil => simp
    | cons b s =>
      simp only [List.cons_append, List.tail_cons, List.zip_cons_cons, List.mem_cons] at ih ⊢
      exact Or.inr ih

/-! ## The builders -/

/-- C5 (counterexample): the sox builder, device unset and `endOnSilence`
false, with `audioType` set to `'silence'`: the vector holds the token
`'silence'`, passed through as the audio type. -/
theorem C5_counterexample_audioType_silence :
    ({ defaults with audioType := str "silence" } : Options).device.truthy = false ∧
      ({ defaults with audioType := str "silence" } : Options).endOnSilence.truthy = false ∧
      str "silence" ∈ (Backend.sox.build { defaults with audioType := str "silence" }).args := by
  decide

/-- C5 (amended): for each builder and every configuration with device unset
and `endOnSilence` false, the vector holds `sampleRate` right after the rate
flag and `channels` right after the channel flag, unchanged, and holds no
silence clause: nowhere is a token `'silence'` followed by `'1'`, and there is
no token `'silence'` at all unless `sampleRate`, `channels` or `audioType` is
itself `'silence'`. -/
theorem C5_rate_channels_verbatim_no_silence_clause (b : Backend) (o : Options)
    (hd : o.device.truthy = false) (he : o.endOnSilence.truthy = false) :
    [b.rateFlag, o.sampleRate] <:+: (b.build o).args ∧
      [b.channelFlag, o.channels] <:+: (b.build o).args ∧
      ¬ [str "silence", str "1"] <:+: (b.build o).args ∧
      (o.sampleRate ≠ str "silence" → o.channels ≠ str "silence" →
        o.audioType ≠ str "silence" → str "silence" ∉ (b.build o).args) := by
  cases b
  · simp only [Backend.build, Backend.rateFlag, Backend.channelFlag, arecord_args_unset o hd]
    refine ⟨⟨[str "-q"], _, rfl⟩, ⟨[str "-q", str "-r", o.sampleRate], _, rfl⟩, ?_, ?_⟩
    · intro h
      have hp := pair_mem_zip_tail_of_infix h
      simp [str] at hp
    · intro h1 h2 h3
      simp [str] at *
      simp [Ne.symm h1, Ne.symm h2, Ne.symm h3]
  · simp only [Backend.build, Backend.rateFlag, Backend.channelFlag, rec_args_plain o he]
    refine ⟨⟨[str "-q"], _, rfl⟩, ⟨[str "-q", str "-r", o.sampleRate], _, rfl⟩, ?_, ?_⟩
    · intro h
      have hp := pair_mem_zip_tail_of_infix h
      simp [str] at hp
    · intro h1 h2 h3
      simp [str] at *
      simp [Ne.symm h1, Ne.symm h2, Ne.symm h3]
  · simp only [Backend.build, Backend.rateFlag, Backend.channelFlag, sox_args_plain o hd he]
    refine ⟨⟨[str "--default-device", str "--default-device", str "--no-show-progress"], _, rfl⟩,
      ⟨[str "--default-device", str "--default-device", str "--no-show-progress", str "--rate",
        o.sampleRate], _, rfl⟩, ?_, ?_⟩
    · intro h
      have hp := pair_mem_zip_tail_of_infix h
      simp [str] at hp
    · intro h1 h2 h3
      simp [str] at *
      simp [Ne.symm h1, Ne.symm h2, Ne.symm h3]

/-- C5 (witness): the default options, for the rec builder. -/
theorem C5_rate_channels_verbatim_no_silence_clause_witness :
    defaults.device.truthy = false ∧ defaults.endOnSilence.truthy = false ∧
      ([Backend.recB.rateFlag, defaults.sampleRate] <:+: (Backend.recB.build defaults).args ∧
        [Backend.recB.channelFlag, defaults.channels] <:+: (Backend.recB.build defaults).args ∧
        ¬ [str "silence", str "1"] <:+: (Backend.recB.build defaults).args ∧
        (defaults.sampleRate ≠ str "silence" → defaults.channels ≠ str "silence" →
          defaults.audioType ≠ str "silence" →
          str "silence" ∉ (Backend.recB.build defaults).args)) :=
  ⟨by decide, by decide,
    C5_rate_channels_verbatim_no_silence_clause Backend.recB defaults (by decide) (by decide)⟩

/-- C6 (counterexample): the arecord builder with `endOnSilence` enabled returns
a vector with no silence clause, indeed with no token `'silence'`. -/
theorem C6_counterexample_arecord :
    ({ defaults with endOnSilence := .bool true } : Options).endOnSilence.truthy = true ∧
      ¬ [str "silence", str "1", str "0.1", str "0.5%", str "1", str "1.0", str "0.5%"] <:+:
          (Backend.arecord.build { defaults with endOnSilence := .bool true }).args ∧
      str "silence" ∉ (Backend.arecord.build { defaults with endOnSilence := .bool true }).args := by
  decide

/-- C6 (amended): for the rec builder, and for the sox builder with device
unset, every configuration with `endOnSilence` enabled yields a vector that
holds a silence clause whose start threshold is `thresholdStart` when that
override is given (truthy) and otherwise the shared threshold followed by `%`,
and whose end threshold is `thresholdEnd` when given and otherwise the shared
threshold followed by `%`. -/
theorem C6_silence_clause_thresholds (o : Options) (he : o.endOnSilence.truthy = true) :
    [str "silence", str "1", str "0.1",
        if o.thresholdStart.truthy = true then o.thresholdStart
        else str (o.threshold.toStr ++ "%"),
        str "1", o.silence,
        if o.thresholdEnd.truthy = true then o.thresholdEnd
        else str (o.threshold.toStr ++ "%")] <:+: (rec o).args ∧
      (o.device.truthy = false →
        [str "silence", str "1", str "0.1",
          if o.thresholdStart.truthy = true then o.thresholdStart
          else str (o.threshold.toStr ++ "%"),
          str "1", o.silence,
          if o.thresholdEnd.truthy = true then o.thresholdEnd
          else str (o.threshold.toStr ++ "%")] <:+: (sox o).args) := by
  constructor
  · rw [rec_args_silence o he, silenceClause_eq]
    exact (List.suffix_append _ _).isInfix
  · intro hd
    rw [sox_args_silence o hd he, silenceClause_eq]
    exact (List.suffix_append _ _).isInfix

/-- C6 (witness): the default options with `endOnSilence` enabled. -/
theorem C6_silence_clause_thresholds_witness :
    ({ defaults with endOnSilence := .bool true } : Options).endOnSilence.truthy = true ∧
      [str "silence", str "1", str "0.1", str "0.5%", str "1", str "1.0", str "0.5%"] <:+:
        (rec { defaults with endOnSilence := .bool true }).args :=
  ⟨by decide, (C6_silence_clause_thresholds { defaults with endOnSilence := .bool true }
    (by decide)).1⟩

/-- C7: for the rec builder, and for the sox builder with device unset, the
vector with `endOnSilence` enabled is the vector with `endOnSilence` disabled
followed by exactly the seven tokens `'silence'`, `'1'`, `'0.1'`, S, `'1'`, the
configured silence duration, E, where S is `thresholdStart` if given (truthy)
else `threshold + '%'` and E is `thresholdEnd` if given else `threshold + '%'`;
the vector of the arecord builder does not depend on `endOnSilence`. -/
theorem C7_silence_clause_appended (o : Options) (e f : Value)
    (he : e.truthy = true) (hf : f.truthy = false) :
    (rec { o with endOnSilence := e }).args =
        (rec { o with endOnSilence := f }).args ++
          [str "silence", str "1", str "0.1",
            if o.thresholdStart.truthy = true then o.thresholdStart
            else str (o.threshold.toStr ++ "%"),
            str "1", o.silence,
            if o.thresholdEnd.truthy = true then o.thresholdEnd
            else str (o.threshold.toStr ++ "%")] ∧
      (o.device.truthy = false →
        (sox { o with endOnSilence := e }).args =
          (sox { o with endOnSilence := f }).args ++
            [str "silence", str "1", str "0.1",
              if o.thresholdStart.truthy = true then o.thresholdStart
              else str (o.threshold.toStr ++ "%"),
              str "1", o.silence,
              if o.thresholdEnd.truthy = true then o.thresholdEnd
              else str (o.threshold.toStr ++ "%")]) ∧
      (∀ x y : Value,
        (arecord { o with endOnSilence := x }).args = (arecord { o with endOnSilence := y }).args) := by
  refine ⟨?_, ?_, ?_⟩
  · rw [rec_args_silence { o with endOnSilence := e } he,
      rec_args_plain { o with endOnSilence := f } hf, silenceClause_eq]
  · intro hd
    rw [sox_args_silence { o with endOnSilence := e } hd he,
      sox_args_plain { o with endOnSilence := f } hd hf, silenceClause_eq]
  · intro x y
    rfl

/-- C7 (witness): the default options, `endOnSilence` being `true` against
`false`. -/
theorem C7_silence_clause_appended_witness :
    (Value.bool true).truthy = true ∧ (Value.bool false).truthy = false ∧
      (sox { defaults with endOnSilence := .bool true }).args =
        (sox { defaults with endOnSilence := .bool false }).args ++
          [str "silence", str "1", str "0.1", str "0.5%", str "1", str "1.0", str "0.5%"] :=
  ⟨by decide, by decide,
    (C7_silence_clause_appended defaults (.bool true) (.bool false) (by decide) (by decide)).2.1
      (by decide)⟩

/-- C8 (counterexample): the rec builder, given the device `'hw:1,0'`, returns
a vector in which no token holds the device identifier. -/
theorem C8_counterexample_rec_ignores_device :
    ({ defaults with device := str "hw:1,0" } : Options).device.truthy = true ∧
      ¬ MentionsDevice (str "hw:1,0")
          (Backend.recB.build { defaults with device := str "hw:1,0" }).args := by
  decide

/-- C8 (amended): for the arecord and sox builders and every configuration in
which a capture device is specified (truthy), the vector holds the device
identifier inside the backend's device flag: `'-D'` followed by the device for
arecord, the composite token `--type waveaudio "<device>"` for sox; the rec
builder has no device flag, its vector is the same whatever the device. -/
theorem C8_device_flag (o : Options) (hd : o.device.truthy = true) :
    ([str "-D", o.device] <:+: (arecord o).args ∧ MentionsDevice o.device (arecord o).args) ∧
      (str ("--type waveaudio \"" ++ o.device.toStr ++ "\"") ∈ (sox o).args ∧
        MentionsDevice o.device (sox o).args) ∧
      (∀ d : Value, (rec { o with device := d }).args = (rec o).args) := by
  have hflag : o.device.toStr.data <:+: (waveaudioFlag o.device).toStr.data :=
    ⟨"--type waveaudio \"".data, "\"".data, by
      simp [waveaudioFlag, str, Value.toStr, String.data_append]⟩
  have hmem : waveaudioFlag o.device ∈ (sox o).args := by
    cases he : o.endOnSilence.truthy
    · rw [sox_args_device_plain o hd he]; simp
    · rw [sox_args_device_silence o hd he]; simp
  refine ⟨⟨?_, ?_⟩, ⟨hmem, ⟨_, hmem, hflag⟩⟩, fun d => rfl⟩
  · rw [arecord_args_device o hd]
    exact ⟨[], _, rfl⟩
  · rw [arecord_args_device o hd]
    exact ⟨o.device, by simp, List.infix_refl _⟩

/-- C8 (witness): the default options with the device `'hw:1,0'`. -/
theorem C8_device_flag_witness :
    ({ defaults with device := str "hw:1,0" } : Options).device.truthy = true ∧
      [str "-D", str "hw:1,0"] <:+: (arecord { defaults with device := str "hw:1,0" }).args ∧
      str "--type waveaudio \"hw:1,0\"" ∈ (sox { defaults with device := str "hw:1,0" }).args :=
  ⟨by decide,
    (C8_device_flag { defaults with device := str "hw:1,0" } (by decide)).1.1,
    (C8_device_flag { defaults with device := str "hw:1,0" } (by decide)).2.1.1⟩

/-- C9: for the arecord builder and every configuration with a device `d`
specified (truthy), the vector is the two tokens `'-D'`, `d` put in front of
the vector the builder returns for the same configuration with the device
unset (`undefined`, or any other falsy value). -/
theorem C9_arecord_device_prepended (o : Options) (u : Value)
    (hd : o.device.truthy = true) (hu : u.truthy = false) :
    (arecord o).args = str "-D" :: o.device :: (arecord { o with device := u }).args := by
  rw [arecord_args_device o hd, arecord_args_unset { o with device := u } hu]

/-- C9 (witness): the default options with the device `'plughw:1'`, against the
device `undefined`. -/
theorem C9_arecord_device_prepended_witness :
    ({ defaults with device := str "plughw:1" } : Options).device.truthy = true ∧
      Value.undefined.truthy = false ∧
      (arecord { defaults with device := str "plughw:1" }).args =
        str "-D" :: str "plughw:1" :: (arecord { defaults with device := .undefined }).args :=
  ⟨by decide, by decide,
    C9_arecord_device_prepended { defaults with device := str "plughw:1" } .undefined
      (by decide) (by decide)⟩

/-- For every configuration the sox builder returns spawn options with `shell`
enabled, and the arecord and rec builders return no spawn options; so when the
constructor has looked up a registered builder, the spawn options it hands to
the spawner hold a shell request exactly when that builder is sox. -/
theorem shell_request_of_builder (spawn : Spawn) (o : Options) (c : Config) (b : Backend)
    (h : recorders (c.recorder.getD (str "sox")) = some b) :
    (sox o).spawnOptions = some { shell := some (.bool true) } ∧
      (arecord o).spawnOptions = none ∧
      (rec o).spawnOptions = none ∧
      (∀ call ∈ (record spawn c).2.spawned,
        call.options.shell = if b = Backend.sox then some (.bool true) else none) := by
  refine ⟨rfl, rfl, rfl, ?_⟩
  rw [record_of_recorders spawn h]
  intro call hcall
  rw [start_spawned] at hcall
  simp only [List.nil_append, List.mem_singleton] at hcall
  rw [hcall]
  cases b <;> simp [Backend.build, arecord, rec, sox, assignSpawn]

/-- C10 (the code at the failing input): for the caller object
`{ recorder: 'constructor', cmd: 'sh', args: ['-c', 'echo x'],
spawnOptions: { shell: true } }` no builder is looked up, sox or other: line 99
finds the inherited `Object`, line 100 reads `args` and `spawnOptions` off the
options object itself, and the spawner is called once with a shell request. -/
theorem C10_shell_request_without_sox_builder (spawn : Spawn) :
    recorders (str "constructor") = none ∧
      lookupRecorder (str "constructor") = Member.objectConstructor ∧
      (record spawn
          { recorder := some (str "constructor"), cmd := some (str "sh"),
            args := some (.array [str "-c", str "echo x"]),
            spawnOptions := some (.object { shell := some (.bool true) }) }).2.spawned =
        [{ cmd := str "sh",
           args := [str "-c", str "echo x"],
           options := { encoding := some (str "binary"), stdio := some (str "pipe"),
                        shell := some (.bool true) } }] := by
  refine ⟨by decide, by decide, ?_⟩
  rw [record_of_constructor spawn (by decide)]
  show (Recording.start spawn _ {}).2.spawned = _
  rw [start_spawned]
  rfl

/-! ## Exit codes and lifecycle -/

/-- The text of an integer number is its decimal text. -/
theorem int_toStr (n : Int) : (int n).toStr = toString n := by
  cases n with
  | ofNat m =>
    simp [int, Value.toStr, Num.toStr, decText, stripZeros]
    rfl
  | negSucc m =>
    simp [int, Value.toStr, Num.toStr, decText, stripZeros, Int.negSucc_lt_zero]
    rfl

/-- Under `===` only a number of value zero equals `0`. -/
theorem strictEq_zero_iff (code : Value) :
    code.strictEq (int 0) = true ↔ ∃ k, code = .number (.dec 0 k) := by
  cases code with
  | number n =>
    cases n with
    | dec m k =>
      simp only [int, Value.strictEq, Num.strictEq, decide_eq_true_eq, pow_zero, mul_one,
        zero_mul, Value.number.injEq, Num.dec.injEq]
      constructor
      · intro h
        exact ⟨k, h, rfl⟩
      · rintro ⟨j, hm, -⟩
        simp [hm]
    | nan => simp [int, Value.strictEq, Num.strictEq]
    | inf b => simp [int, Value.strictEq, Num.strictEq]
  | undefined => simp [int, Value.strictEq]
  | null => simp [int, Value.strictEq]
  | bool b => simp [int, Value.strictEq]
  | string s => simp [int, Value.strictEq]

/-- The exit message holds the text of the command and the text of the code. -/
theorem exitMessage_holds_texts (cmd code : Value) :
    cmd.toStr.data <:+: (exitMessage cmd code).data ∧
      code.toStr.data <:+: (exitMessage cmd code).data := by
  constructor
  · exact ⟨[], (" has exited with error code " ++ code.toStr ++
      ".\n\nEnable debugging with the environment variable DEBUG=record.").data, by
      simp [exitMessage, String.data_append]⟩
  · exact ⟨(cmd.toStr ++ " has exited with error code ").data,
      ".\n\nEnable debugging with the environment variable DEBUG=record.".data, by
      simp [exitMessage, String.data_append]⟩

/-- C11: for every integer exit code `n` other than 0 the `close` listener emits
exactly one `error` event on the output stream, with a message that holds the
text of the session's command and the decimal text of `n`; for exit code 0 it
emits nothing and leaves the stream as it is. -/
theorem C11_close_emits_one_error_for_nonzero_code (self : Recording) (r : Readable) (n : Int)
    (h : n ≠ 0) :
    (∃ m, (self.onClose r (int n)).errors = r.errors ++ [m] ∧
        (self.onClose r (int n)).paused = r.paused ∧
        self.cmd.toStr.data <:+: m.data ∧
        (toString n).data <:+: m.data) ∧
      self.onClose r (int 0) = r := by
  have hne : (int n).strictEq (int 0) = false := by
    cases hb : (int n).strictEq (int 0) with
    | false => rfl
    | true =>
      obtain ⟨k, hk⟩ := (strictEq_zero_iff _).1 hb
      simp only [int, Value.number.injEq, Num.dec.injEq] at hk
      exact absurd hk.1 h
  refine ⟨⟨exitMessage self.cmd (int n), ?_, ?_, (exitMessage_holds_texts _ _).1, ?_⟩, ?_⟩
  · simp [Recording.onClose, hne, Readable.emitError]
  · simp [Recording.onClose, hne, Readable.emitError]
  · rw [← int_toStr]
    exact (exitMessage_holds_texts _ _).2
  · have h0 : (int 0).strictEq (int 0) = true := by decide
    simp [Recording.onClose, h0]

/-- C11 (witness): a session running `sox` whose child exits with code 2. -/
theorem C11_close_emits_one_error_for_nonzero_code_witness :
    (2 : Int) ≠ 0 ∧
      ((∃ m, (Recording.onClose
            { options := defaults, cmd := str "sox", args := (sox defaults).args,
              cmdOptions := {} } {} (int 2)).errors = ({} : Readable).errors ++ [m] ∧
          (Recording.onClose
            { options := defaults, cmd := str "sox", args := (sox defaults).args,
              cmdOptions := {} } {} (int 2)).paused = ({} : Readable).paused ∧
          (str "sox").toStr.data <:+: m.data ∧
          (toString (2 : Int)).data <:+: m.data) ∧
        Recording.onClose
          { options := defaults, cmd := str "sox", args := (sox defaults).args,
            cmdOptions := {} } {} (int 0) = {}) :=
  ⟨by decide, C11_close_emits_one_error_for_nonzero_code
    { options := defaults, cmd := str "sox", args := (sox defaults).args, cmdOptions := {} }
    {} 2 (by decide)⟩

/-- C12: in every session state `stop`, `pause`, `resume` and `isPaused` fail
with the assertion `Recording not yet started` exactly when the session has no
process handle, and `stream` fails with it exactly when the session has no
output-stream handle; when the assertion fails the session is left as it was,
so no signal is sent and the paused state of the stream is unchanged. -/
theorem C12_not_started_assertion (self : Recording) :
    (self.stop.1 = .error "Recording not yet started" ↔ self.process = none) ∧
      (self.pause.1 = .error "Recording not yet started" ↔ self.process = none) ∧
      (self.resume.1 = .error "Recording not yet started" ↔ self.process = none) ∧
      (self.isPaused.1 = .error "Recording not yet started" ↔ self.process = none) ∧
      (self.stream.1 = .error "Recording not yet started" ↔ self._stream = none) ∧
      (self.process = none →
        self.stop.2 = self ∧ self.pause.2 = self ∧ self.resume.2 = self ∧
          self.isPaused.2 = self) ∧
      (self._stream = none → self.stream.2 = self) := by
  refine ⟨?_, ?_, ?_, ?_, ?_, ?_, ?_⟩
  · cases hp : self.process <;> simp [Recording.stop, hp, notStarted]
  · cases hp : self.process <;> cases hs : self._stream <;>
      simp [Recording.pause, hp, hs, notStarted]
  · cases hp : self.process <;> cases hs : self._stream <;>
      simp [Recording.resume, hp, hs, notStarted]
  · cases hp : self.process <;> cases hs : self._stream <;>
      simp [Recording.isPaused, hp, hs, notStarted]
  · cases hs : self._stream <;> simp [Recording.stream, hs, notStarted]
  · intro hp
    simp [Recording.stop, Recording.pause, Recording.resume, Recording.isPaused, hp]
  · intro hs
    simp [Recording.stream, hs]

/-- C13: for every started session, whatever the paused state of its stream,
`isPaused()` right after `pause()` returns true and `isPaused()` right after
`resume()` returns false; `pause` sends `SIGSTOP` and `resume` sends `SIGCONT`
to the process, and nothing else. -/
theorem C13_pause_resume_isPaused (self : Recording) (cp : ChildProcess) (r : Readable)
    (hp : self.process = some cp) (hs : self._stream = some r) :
    self.pause.1 = .ok () ∧
      self.pause.2.isPaused.1 = .ok true ∧
      self.pause.2.process = some { signals := cp.signals ++ ["SIGSTOP"] } ∧
      self.resume.1 = .ok () ∧
      self.resume.2.isPaused.1 = .ok false ∧
      self.resume.2.process = some { signals := cp.signals ++ ["SIGCONT"] } := by
  simp [Recording.pause, Recording.resume, Recording.isPaused, hp, hs, Readable.pause,
    Readable.resume, Readable.isPaused, ChildProcess.kill]

/-- C13 (witness): a started session whose stream is already paused. -/
theorem C13_pause_resume_isPaused_witness :
    ({ options := defaults, cmd := str "sox", args := (sox defaults).args, cmdOptions := {},
        process := some {}, _stream := some { paused := true } } : Recording).process = some {} ∧
      Recording._stream
        { options := defaults, cmd := str "sox", args := (sox defaults).args, cmdOptions := {},
          process := some {}, _stream := some { paused := true } } = some { paused := true } ∧
      (Recording.resume
        { options := defaults, cmd := str "sox", args := (sox defaults).args, cmdOptions := {},
          process := some {}, _stream := some { paused := true } }).2.isPaused.1 = .ok false :=
  ⟨rfl, rfl,
    (C13_pause_resume_isPaused
      { options := defaults, cmd := str "sox", args := (sox defaults).args, cmdOptions := {},
        process := some {}, _stream := some { paused := true } } {} { paused := true }
      rfl rfl).2.2.2.2.1⟩

/-! ## Fixed tokens and spawn options -/

/-- C14: for every backend and every configuration the vector holds the quiet
flag (`-q` for arecord and rec, `--no-show-progress` for sox), the fixed 16-bit
signed sample-format tokens (`-f S16_LE` for arecord, `-e signed-integer -b 16`
for rec, `--encoding signed-integer --bits 16` for sox), the stdout target
token `-`, and the configured `audioType` right after the type flag. -/
theorem C14_fixed_tokens (b : Backend) (o : Options) :
    b.quietFlag ∈ (b.build o).args ∧
      b.formatTokens <:+: (b.build o).args ∧
      str "-" ∈ (b.build o).args ∧
      [b.typeFlag, o.audioType] <:+: (b.build o).args := by
  cases b
  · simp only [Backend.build, Backend.quietFlag, Backend.formatTokens, Backend.typeFlag]
    cases hd : o.device.truthy
    · rw [arecord_args_unset o hd]
      exact ⟨by simp, ⟨[str "-q", str "-r", o.sampleRate, str "-c", o.channels, str "-t",
        o.audioType], _, rfl⟩, by simp,
        ⟨[str "-q", str "-r", o.sampleRate, str "-c", o.channels], _, rfl⟩⟩
    · rw [arecord_args_device o hd]
      exact ⟨by simp, ⟨[str "-D", o.device, str "-q", str "-r", o.sampleRate, str "-c", o.channels,
        str "-t", o.audioType], _, rfl⟩, by simp,
        ⟨[str "-D", o.device, str "-q", str "-r", o.sampleRate, str "-c", o.channels], _, rfl⟩⟩
  · simp only [Backend.build, Backend.quietFlag, Backend.formatTokens, Backend.typeFlag]
    cases he : o.endOnSilence.truthy
    · rw [rec_args_plain o he]
      exact ⟨by simp, ⟨[str "-q", str "-r", o.sampleRate, str "-c", o.channels], _, rfl⟩, by simp,
        ⟨[str "-q", str "-r", o.sampleRate, str "-c", o.channels, str "-e", str "signed-integer",
          str "-b", str "16"], _, rfl⟩⟩
    · rw [rec_args_silence o he]
      simp only [silenceClause, List.cons_append, List.nil_append]
      exact ⟨by simp, ⟨[str "-q", str "-r", o.sampleRate, str "-c", o.channels], _, rfl⟩, by simp,
        ⟨[str "-q", str "-r", o.sampleRate, str "-c", o.channels, str "-e", str "signed-integer",
          str "-b", str "16"], _, rfl⟩⟩
  · simp only [Backend.build, Backend.quietFlag, Backend.formatTokens, Backend.typeFlag]
    cases hd : o.device.truthy <;> cases he : o.endOnSilence.truthy
    · rw [sox_args_plain o hd he]
      exact ⟨by simp, ⟨[str "--default-device", str "--default-device", str "--no-show-progress",
        str "--rate", o.sampleRate, str "--channels", o.channels], _, rfl⟩, by simp,
        ⟨[str "--default-device", str "--default-device", str "--no-show-progress", str "--rate",
          o.sampleRate, str "--channels", o.channels, str "--encoding", str "signed-integer",
          str "--bits", str "16"], _, rfl⟩⟩
    · rw [sox_args_silence o hd he]
      simp only [silenceClause, List.cons_append, List.nil_append]
      exact ⟨by simp, ⟨[str "--default-device", str "--default-device", str "--no-show-progress",
        str "--rate", o.sampleRate, str "--channels", o.channels], _, rfl⟩, by simp,
        ⟨[str "--default-device", str "--default-device", str "--no-show-progress", str "--rate",
          o.sampleRate, str "--channels", o.channels, str "--encoding", str "signed-integer",
          str "--bits", str "16"], _, rfl⟩⟩
    · rw [sox_args_device_plain o hd he]
      exact ⟨by simp, ⟨[str "--default-device", str "--no-show-progress", str "--rate",
        o.sampleRate, str "--channels", o.channels], _, rfl⟩, by simp,
        ⟨[str "--default-device", str "--no-show-progress", str "--rate", o.sampleRate,
          str "--channels", o.channels, str "--encoding", str "signed-integer", str "--bits",
          str "16", waveaudioFlag o.device], _, rfl⟩⟩
    · rw [sox_args_device_silence o hd he]
      exact ⟨by simp, ⟨[str "--default-device", str "--no-show-progress", str "--rate",
        o.sampleRate, str "--channels", o.channels], _, rfl⟩, by simp,
        ⟨[str "--default-device", str "--no-show-progress", str "--rate", o.sampleRate,
          str "--channels", o.channels, str "--encoding", str "signed-integer", str "--bits",
          str "16"], _, rfl⟩⟩

/-- C15 (counterexample): for the caller object `{ cmd: 'sox' }` the session
hands `stdio: 'pipe'` to the spawner, which the platform reads as a pipe on
standard input too: standard input is not left unconnected. -/
theorem C15_counterexample_stdin_piped :
    (∃ call, (record spawnAlways { cmd := some (str "sox") }).2.spawned = [call] ∧
        call.options.stdioTriple = some (str "pipe", str "pipe", str "pipe")) ∧
      ¬ ∀ call ∈ (record spawnAlways { cmd := some (str "sox") }).2.spawned,
          StdinUnconnectedOutputsPiped call.options := by
  refine ⟨⟨_, rfl, rfl⟩, ?_⟩
  intro h
  obtain ⟨i, hi, hne⟩ := h _ (List.mem_singleton.2 rfl)
  have hi2 : some (str "pipe", str "pipe", str "pipe") = some (i, str "pipe", str "pipe") := hi
  injection hi2 with hi2
  injection hi2 with hi2 _
  exact hne hi2.symm

/-- C15 (amended): for every configuration whose merged `recorder` field names
a registered builder, the session calls the spawner once and the spawn options
it hands over hold `stdio: 'pipe'` and `encoding: 'binary'`: standard output
and standard error are asked for as pipes, and standard input is a pipe as
well. -/
theorem C15_stdio_all_piped (spawn : Spawn) (c : Config) (b : Backend)
    (h : recorders (c.recorder.getD (str "sox")) = some b) :
    (∃ call, (record spawn c).2.spawned = [call] ∧
        call.options.stdio = some (str "pipe") ∧
        call.options.encoding = some (str "binary") ∧
        call.options.stdioTriple = some (str "pipe", str "pipe", str "pipe")) ∧
      (match (record spawn c).1 with
        | .ok s =>
          s.cmdOptions.stdio = some (str "pipe") ∧
            s.cmdOptions.stdioTriple = some (str "pipe", str "pipe", str "pipe")
        | .error _ => True) := by
  have hopt : (assignSpawn { encoding := some (str "binary"), stdio := some (str "pipe") }
        ((b.build (mergeOptions c)).spawnOptions.getD {})).stdio = some (str "pipe") ∧
      (assignSpawn { encoding := some (str "binary"), stdio := some (str "pipe") }
        ((b.build (mergeOptions c)).spawnOptions.getD {})).encoding = some (str "binary") := by
    cases b <;> simp [Backend.build, arecord, rec, sox, assignSpawn]
  rw [record_of_recorders spawn h]
  constructor
  · refine ⟨{ cmd := (aliasCmd c).cmd.getD .undefined,
              args := (b.build (mergeOptions c)).args,
              options :=
                assignSpawn { encoding := some (str "binary"), stdio := some (str "pipe") }
                  ((b.build (mergeOptions c)).spawnOptions.getD {}) },
      ?_, hopt.1, hopt.2, by simp [SpawnOptions.stdioTriple, hopt.1]⟩
    rw [start_spawned]
    rfl
  · split
    · next s hs =>
      rw [(start_ok_of_eq hs).2.2.2]
      exact ⟨hopt.1, by simp [SpawnOptions.stdioTriple, hopt.1]⟩
    · trivial

/-- C15 (witness): the caller object `{ cmd: 'sox' }`, whose recorder is the
default `'sox'`. -/
theorem C15_stdio_all_piped_witness :
    recorders ((({ cmd := some (str "sox") } : Config).recorder).getD (str "sox")) =
        some Backend.sox ∧
      ((∃ call, (record spawnAlways { cmd := some (str "sox") }).2.spawned = [call] ∧
          call.options.stdio = some (str "pipe") ∧
          call.options.encoding = some (str "binary") ∧
          call.options.stdioTriple = some (str "pipe", str "pipe", str "pipe")) ∧
        (match (record spawnAlways { cmd := some (str "sox") }).1 with
          | .ok s =>
            s.cmdOptions.stdio = some (str "pipe") ∧
              s.cmdOptions.stdioTriple = some (str "pipe", str "pipe", str "pipe")
          | .error _ => True)) :=
  ⟨by decide, C15_stdio_all_piped spawnAlways { cmd := some (str "sox") } Backend.sox
    (by decide)⟩

/-- C16 (the code at the failing input): the sox builder with the device `Mic`
and `endOnSilence` enabled puts the device flag inside the silence clause,
after the start threshold and behind the stdout target `-`: the vector is not
the vector for `endOnSilence` disabled followed by the seven clause tokens. -/
theorem C16_sox_device_flag_inside_silence_clause :
    (sox { defaults with device := str "Mic", endOnSilence := .bool true }).args =
        [str "--default-device", str "--no-show-progress", str "--rate", int 16000,
          str "--channels", int 1, str "--encoding", str "signed-integer", str "--bits",
          str "16", str "--type", str "wav", str "-",
          str "silence", str "1", str "0.1", str "0.5%", str "--type waveaudio \"Mic\"",
          str "1", str "1.0", str "0.5%"] ∧
      (sox { defaults with device := str "Mic", endOnSilence := .bool false }).args =
        [str "--default-device", str "--no-show-progress", str "--rate", int 16000,
          str "--channels", int 1, str "--encoding", str "signed-integer", str "--bits",
          str "16", str "--type waveaudio \"Mic\"", str "--type", str "wav", str "-"] ∧
      (sox { defaults with device := str "Mic", endOnSilence := .bool true }).args ≠
        (sox { defaults with device := str "Mic", endOnSilence := .bool false }).args ++
          [str "silence", str "1", str "0.1", str "0.5%", str "1", str "1.0", str "0.5%"] := by
  decide

/-- C17: the `close` listener emits one `error` event for every close code
other than the number 0, the `null` code of a child ended by a signal included;
so when a started session is stopped (`kill()` with the default signal) and its
child then closes with code `null`, one `error` event is emitted on the output
stream, its message stating error code `null`. -/
theorem C17_close_null_emits_error (self : Recording) (cp : ChildProcess) (r : Readable)
    (code : Value) (hp : self.process = some cp) (hs : self._stream = some r)
    (h : ∀ k, code ≠ .number (.dec 0 k)) :
    (self.onClose r code).errors =
        r.errors ++ [self.cmd.toStr ++ " has exited with error code " ++ code.toStr ++
          ".\n\nEnable debugging with the environment variable DEBUG=record."] ∧
      self.stop.1 = .ok () ∧
      self.stop.2.process = some { signals := cp.signals ++ ["SIGTERM"] } ∧
      (self.stop.2.close .null)._stream =
        some { paused := r.paused,
               errors := r.errors ++ [self.cmd.toStr ++
                 " has exited with error code null.\n\nEnable debugging with the environment variable DEBUG=record."] } := by
  have hne : code.strictEq (int 0) = false := by
    cases hb : code.strictEq (int 0) with
    | false => rfl
    | true =>
      obtain ⟨k, hk⟩ := (strictEq_zero_iff _).1 hb
      exact absurd hk (h k)
  have hnull : Value.null.strictEq (int 0) = false := by decide
  refine ⟨?_, ?_, ?_, ?_⟩
  · simp [Recording.onClose, hne, Readable.emitError, exitMessage]
  · simp [Recording.stop, hp]
  · simp [Recording.stop, hp, ChildProcess.kill]
  · simp [Recording.stop, hp, hs, Recording.close, Recording.onClose, hnull,
      Readable.emitError, exitMessage, Value.toStr, String.append_assoc]

/-- C17 (witness): a started session running `sox`, the close code `null`. -/
theorem C17_close_null_emits_error_witness :
    (Recording.stop
        { options := defaults, cmd := str "sox", args := (sox defaults).args, cmdOptions := {},
          process := some {}, _stream := some {} }).2.process = some { signals := ["SIGTERM"] } ∧
      (Recording.close
        (Recording.stop
          { options := defaults, cmd := str "sox", args := (sox defaults).args, cmdOptions := {},
            process := some {}, _stream := some {} }).2 .null)._stream =
        some { paused := false,
               errors := ["sox has exited with error code null.\n\nEnable debugging with the environment variable DEBUG=record."] } :=
  ⟨(C17_close_null_emits_error
      { options := defaults, cmd := str "sox", args := (sox defaults).args, cmdOptions := {},
        process := some {}, _stream := some {} } {} {} .null rfl rfl
      (fun _ hk => Value.noConfusion hk)).2.2.1,
    (C17_close_null_emits_error
      { options := defaults, cmd := str "sox", args := (sox defaults).args, cmdOptions := {},
        process := some {}, _stream := some {} } {} {} .null rfl rfl
      (fun _ hk => Value.noConfusion hk)).2.2.2⟩

/-! ## The sox builder: default device and threshold overrides -/

/-- The composite device flag is not the token `--default-device`. -/
theorem waveaudioFlag_ne_default (d : Value) : waveaudioFlag d ≠ str "--default-device" := by
  intro h
  simp only [waveaudioFlag, str, Value.string.injEq] at h
  have h2 := congrArg (fun s => s.data.take 3) h
  simp only [String.data_append, List.append_assoc, List.cons_append, List.take_succ_cons] at h2
  simp at h2

/-- A threshold followed by `%` is not the token `--default-device`. -/
theorem plusStr_percent_ne_default (v : Value) : v.plusStr "%" ≠ str "--default-device" := by
  intro h
  simp only [Value.plusStr, str, Value.string.injEq] at h
  have h2 := congrArg (fun s => s.data.reverse.head?) h
  simp only [String.data_append, List.reverse_append] at h2
  simp at h2

/-- The value of `a || b` is one of `a` and `b`. -/
theorem or_ne {a b x : Value} (ha : a ≠ x) (hb : b ≠ x) : a.or b ≠ x := by
  unfold Value.or
  split
  · exact ha
  · exact hb

/-- C18 (counterexample): the sox builder, no device, with `audioType` set to
`'--default-device'`: the token occurs three times, not twice. -/
theorem C18_counterexample_audioType_default_device :
    ({ defaults with audioType := str "--default-device" } : Options).device.truthy = false ∧
      List.count (str "--default-device")
        (sox { defaults with audioType := str "--default-device" }).args = 3 := by
  decide

/-- C18 (amended): for the sox builder the token `--default-device` occurs in
the vector of every configuration: as the first two tokens when no device is
specified, and as the first token, together with the composite flag
`--type waveaudio "<device>"`, when a device is specified (truthy); these are
its only occurrences unless one of the values passed through unchanged
(`sampleRate`, `channels`, `audioType`, `silence`, a threshold override) is
itself `--default-device`. -/
theorem C18_default_device_token (o : Options) :
    (o.device.truthy = false →
        ∃ rest, (sox o).args = str "--default-device" :: str "--default-device" :: rest ∧
          (¬ PassesDefaultDevice o → str "--default-device" ∉ rest)) ∧
      (o.device.truthy = true →
        ∃ rest, (sox o).args = str "--default-device" :: rest ∧
          str ("--type waveaudio \"" ++ o.device.toStr ++ "\"") ∈ rest ∧
          (¬ PassesDefaultDevice o → str "--default-device" ∉ rest)) := by
  have hS := @or_ne o.thresholdStart (o.threshold.plusStr "%") (str "--default-device")
  have hE := @or_ne o.thresholdEnd (o.threshold.plusStr "%") (str "--default-device")
  have hw := waveaudioFlag_ne_default o.device
  constructor
  · intro hd
    cases he : o.endOnSilence.truthy
    · rw [sox_args_plain o hd he]
      refine ⟨_, rfl, ?_⟩
      intro hp
      simp only [PassesDefaultDevice, not_or] at hp
      obtain ⟨h1, h2, h3, -, -, -⟩ := hp
      simp [str] at *
      simp [Ne.symm h1, Ne.symm h2, Ne.symm h3]
    · rw [sox_args_silence o hd he]
      refine ⟨_, rfl, ?_⟩
      intro hp
      simp only [PassesDefaultDevice, not_or] at hp
      obtain ⟨h1, h2, h3, h4, h5, h6⟩ := hp
      have hS' := hS h5 (plusStr_percent_ne_default _)
      have hE' := hE h6 (plusStr_percent_ne_default _)
      simp only [silenceClause]
      simp [str] at *
      simp [Ne.symm h1, Ne.symm h2, Ne.symm h3, Ne.symm h4, Ne.symm hS', Ne.symm hE']
  · intro hd
    cases he : o.endOnSilence.truthy
    · rw [sox_args_device_plain o hd he]
      refine ⟨_, rfl, by simp [waveaudioFlag], ?_⟩
      intro hp
      simp only [PassesDefaultDevice, not_or] at hp
      obtain ⟨h1, h2, h3, -, -, -⟩ := hp
      simp [str] at *
      simp [Ne.symm h1, Ne.symm h2, Ne.symm h3, Ne.symm hw]
    · rw [sox_args_device_silence o hd he]
      refine ⟨_, rfl, by simp [waveaudioFlag], ?_⟩
      intro hp
      simp only [PassesDefaultDevice, not_or] at hp
      obtain ⟨h1, h2, h3, h4, h5, h6⟩ := hp
      have hS' := hS h5 (plusStr_percent_ne_default _)
      have hE' := hE h6 (plusStr_percent_ne_default _)
      simp [str] at *
      simp [Ne.symm h1, Ne.symm h2, Ne.symm h3, Ne.symm h4, Ne.symm hS', Ne.symm hE',
        Ne.symm hw]

/-- C19: for the rec and sox builders with `endOnSilence` enabled, a threshold
override is used only when it is truthy: the start token of the clause (the
fourth, after `'silence'`, `'1'`, `'0.1'`) is `thresholdStart` if that is truthy
and else the shared threshold followed by `%`, and the end token (the last of
the vector) is `thresholdEnd` if that is truthy and else the shared threshold
followed by `%`; the overrides `0` and `''` are not truthy. -/
theorem C19_falsy_override_is_absent (o : Options) (he : o.endOnSilence.truthy = true) :
    ([str "silence", str "1", str "0.1",
          if o.thresholdStart.truthy = true then o.thresholdStart
          else str (o.threshold.toStr ++ "%")] <:+: (rec o).args ∧
        (rec o).args.getLast? =
          some (if o.thresholdEnd.truthy = true then o.thresholdEnd
            else str (o.threshold.toStr ++ "%"))) ∧
      ([str "silence", str "1", str "0.1",
          if o.thresholdStart.truthy = true then o.thresholdStart
          else str (o.threshold.toStr ++ "%")] <:+: (sox o).args ∧
        (sox o).args.getLast? =
          some (if o.thresholdEnd.truthy = true then o.thresholdEnd
            else str (o.threshold.toStr ++ "%"))) ∧
      (int 0).truthy = false ∧ (str "").truthy = false := by
  refine ⟨?_, ?_, by decide, by decide⟩
  · rw [rec_args_silence o he, silenceClause_eq]
    exact ⟨⟨[str "-q", str "-r", o.sampleRate, str "-c", o.channels, str "-e",
      str "signed-integer", str "-b", str "16", str "-t", o.audioType, str "-"], _, rfl⟩, rfl⟩
  · cases hd : o.device.truthy
    · rw [sox_args_silence o hd he, silenceClause_eq]
      exact ⟨⟨[str "--default-device", str "--default-device", str "--no-show-progress",
        str "--rate", o.sampleRate, str "--channels", o.channels, str "--encoding",
        str "signed-integer", str "--bits", str "16", str "--type", o.audioType, str "-"],
        _, rfl⟩, rfl⟩
    · rw [sox_args_device_silence o hd he]
      simp only [Value.or, Value.plusStr]
      exact ⟨⟨[str "--default-device", str "--no-show-progress",
        str "--rate", o.sampleRate, str "--channels", o.channels, str "--encoding",
        str "signed-integer", str "--bits", str "16", str "--type", o.audioType, str "-"],
        _, rfl⟩, rfl⟩

/-- C19 (witness): the default options with `endOnSilence` enabled, the start
override `0` and the end override `''`: both tokens are `0.5%`. -/
theorem C19_falsy_override_is_absent_witness :
    (Options.endOnSilence
        { defaults with
          endOnSilence := .bool true, thresholdStart := int 0, thresholdEnd := str "" }).truthy =
        true ∧
      [str "silence", str "1", str "0.1", str "0.5%"] <:+:
        (rec
          { defaults with
            endOnSilence := .bool true, thresholdStart := int 0, thresholdEnd := str "" }).args ∧
      (sox
          { defaults with
            endOnSilence := .bool true, thresholdStart := int 0,
            thresholdEnd := str "" }).args.getLast? = some (str "0.5%") :=
  ⟨by decide,
    (C19_falsy_override_is_absent
      { defaults with
        endOnSilence := .bool true, thresholdStart := int 0, thresholdEnd := str "" }
      (by decide)).1.1,
    (C19_falsy_override_is_absent
      { defaults with
        endOnSilence := .bool true, thresholdStart := int 0, thresholdEnd := str "" }
      (by decide)).2.1.2⟩

end RecordLpcm16
